import Mathlib

/-!
Shallow embedding of `src/adc1_cal.py` (MicroPython-ADC_Cal): the ESP32 ADC1
voltage-calibration engine of class `ADC1Cal`.

Modelling conventions:
* Python integers are `ℤ` (or `ℕ` where the source value is a bit pattern);
  Python float arithmetic (`/`, the calibration formulas) is modelled over `ℚ`.
* Python bitwise operators on (possibly negative) integers use infinite
  two's-complement semantics; `pyNot`, `pyAnd`, `pyShr` implement exactly that.
* Python list indexing `l[i]` allows negative indices (counting from the end)
  and raises `IndexError` out of range; `pyGet` returns `Option`.
* Fallible code (asserts, exceptions, division by zero) is `Option`.
* The `machine.ADC` base-class calls (`super().atten`, `super().width`,
  `self.read`, `machine.mem32[...]`) are external collaborators: register and
  sample reads enter as explicit arguments, the peripheral side effects carry
  no engine state.
-/

namespace AdcCal

/-- Python `~x` on arbitrary precision integers: `~x = -x - 1`. -/
def pyNot (x : ℤ) : ℤ := -x - 1

/-- Python `x & y` on arbitrary precision integers (infinite two's-complement
bitwise and): for nonnegative `a` and `b`, `a & ~(b+1)` clears the bits of `b`
from `a`, and `~(a+1) & ~(b+1) = ~((a ||| b) + 1)`. -/
def pyAnd (x y : ℤ) : ℤ :=
  match x, y with
  | .ofNat a, .ofNat b => .ofNat (a &&& b)
  | .ofNat a, .negSucc b => .ofNat (a ^^^ (a &&& b))
  | .negSucc a, .ofNat b => .ofNat (b ^^^ (a &&& b))
  | .negSucc a, .negSucc b => .negSucc (a ||| b)

/-- Python `x >> n`: arithmetic shift right, i.e. floor division by `2^n`,
which for the positive divisor `2^n` coincides with Lean's `Int` division. -/
def pyShr (x : ℤ) (n : ℕ) : ℤ := x / 2 ^ n

/-- Python list indexing `l[i]`: a negative index counts from the end, an
index out of range raises `IndexError` (here: `none`). -/
def pyGet (l : List ℤ) (i : ℤ) : Option ℤ :=
  let j := if i < 0 then i + l.length else i
  if 0 ≤ j ∧ j < l.length then some (l.getD j.toNat 0) else none

/-- Python `round` on an exact value: round half to even (banker's rounding). -/
def pyRound (q : ℚ) : ℤ :=
  let f := ⌊q⌋
  let r := q - f
  if r < 1 / 2 then f
  else if 1 / 2 < r then f + 1
  else if f % 2 = 0 then f else f + 1

/-- `_ADC_12_BIT_RES` -/
def ADC_12_BIT_RES : ℤ := 4096

/-- `_LIN_COEFF_A_SCALE` -/
def LIN_COEFF_A_SCALE : ℤ := 65536

/-- `_LIN_COEFF_A_ROUND` (= `LIN_COEFF_A_SCALE / 2`) -/
def LIN_COEFF_A_ROUND : ℤ := 32768

/-- `_ADC1_VREF_ATTEN_SCALE` -/
def ADC1_VREF_ATTEN_SCALE : List ℤ := [57431, 76236, 105481, 196602]

/-- `_ADC1_VREF_ATTEN_OFFSET` -/
def ADC1_VREF_ATTEN_OFFSET : List ℤ := [75, 78, 107, 142]

/-- `_VREF_OFFSET` -/
def VREF_OFFSET : ℤ := 1100

/-- `_VREF_STEP_SIZE` -/
def VREF_STEP_SIZE : ℤ := 7

/-- `_VREF_FORMAT` (0: sign-magnitude encoding selector, a falsy value) -/
def VREF_FORMAT : ℤ := 0

/-- `_VREF_MASK` (= 0x1F) -/
def VREF_MASK : ℤ := 31

/-- `_LUT_VREF_LOW` -/
def LUT_VREF_LOW : ℤ := 1000

/-- `_LUT_VREF_HIGH` -/
def LUT_VREF_HIGH : ℤ := 1200

/-- `_LUT_ADC_STEP_SIZE` -/
def LUT_ADC_STEP_SIZE : ℤ := 64

/-- `_LUT_LOW_THRESH` -/
def LUT_LOW_THRESH : ℤ := 2880

/-- `_LUT_HIGH_THRESH` (= `_LUT_LOW_THRESH + _LUT_ADC_STEP_SIZE`) -/
def LUT_HIGH_THRESH : ℤ := LUT_LOW_THRESH + LUT_ADC_STEP_SIZE

/-- `_lut_adc1_low`: 20-point lookup table for VREF 1000 mV. -/
def lut_adc1_low : List ℤ :=
  [2240, 2297, 2352, 2405, 2457, 2512, 2564, 2616, 2664, 2709,
   2754, 2795, 2832, 2868, 2903, 2937, 2969, 3000, 3030, 3060]

/-- `_lut_adc1_high`: 20-point lookup table for VREF 1200 mV. -/
def lut_adc1_high : List ℤ :=
  [2667, 2706, 2745, 2780, 2813, 2844, 2873, 2901, 2928, 2956,
   2982, 3006, 3032, 3059, 3084, 3110, 3135, 3160, 3184, 3209]

/-- The mutable attributes of an `ADC1Cal` instance that the calibration
engine reads or writes (`name`/`_pin` are inert identification data). -/
structure ADC1Cal where
  vref : ℤ
  coeff_a : ℚ
  coeff_b : ℚ
  atten_lvl : Option ℤ
  width_val : ℤ
  div : ℚ
  samples : ℕ
  deriving Repr, DecidableEq

/-- `ADC1Cal.decode_bits(bits, mask, is_twos_compl)`: decode a bit-field value
from two's complement or sign-magnitude to a signed integer.  The Python
`if` conditions test integer truthiness (`≠ 0`). -/
def decode_bits (bits mask is_twos_compl : ℤ) : ℤ :=
  if pyAnd (pyAnd bits (pyNot (pyShr mask 1))) mask ≠ 0 then
    -- Negative (sign bit, the MSB of the mask, is set)
    if is_twos_compl ≠ 0 then
      -(pyAnd (pyNot bits + 1) (pyShr mask 1))
    else
      -(pyAnd bits (pyShr mask 1))
  else
    -- Positive
    pyAnd bits (pyShr mask 1)

/-- `ADC1Cal.read_efuse_vref()`: reconstruct the reference voltage in mV from
the calibration fuse register word `regVal` (the value the external
collaborator `machine.mem32[_VREF_REG]` returns). -/
def read_efuse_vref (regVal : ℤ) : ℤ :=
  VREF_OFFSET + decode_bits (pyAnd (pyShr regVal 8) VREF_MASK) VREF_MASK VREF_FORMAT * VREF_STEP_SIZE

/-- `ADC1Cal.atten(attenuation)`: recompute both linear coefficients from the
current `vref` and record the attenuation.  `_ADC1_VREF_ATTEN_SCALE` and
`_ADC1_VREF_ATTEN_OFFSET` are indexed with Python list semantics; both have
length 4, so either both lookups succeed or the call raises `IndexError`
before any attribute is assigned. -/
def atten (attenuation : ℤ) (s : ADC1Cal) : Option ADC1Cal :=
  match pyGet ADC1_VREF_ATTEN_SCALE attenuation, pyGet ADC1_VREF_ATTEN_OFFSET attenuation with
  | some sc, some off =>
      some { s with
               coeff_a := ((s.vref * sc : ℤ) : ℚ) / (ADC_12_BIT_RES : ℚ)
               coeff_b := (off : ℚ)
               atten_lvl := some attenuation }
  | _, _ => none

/-- `ADC1Cal.width(adc_width)`: the `assert (adc_width >= 0 and adc_width < 4)`
guard, then record the encoded width. -/
def width (adc_width : ℤ) (s : ADC1Cal) : Option ADC1Cal :=
  if 0 ≤ adc_width ∧ adc_width < 4 then some { s with width_val := adc_width } else none

/-- `ADC1Cal.calculate_voltage_linear(raw_val)`. -/
def calculate_voltage_linear (s : ADC1Cal) (raw_val : ℤ) : ℚ :=
  (s.coeff_a * (raw_val : ℚ) + (LIN_COEFF_A_ROUND : ℚ)) / (LIN_COEFF_A_SCALE : ℚ) + s.coeff_b

/-- `ADC1Cal.interpolate_two_points(y1, y2, x_step, x)`. -/
def interpolate_two_points (y1 y2 x_step x : ℚ) : ℚ :=
  (y1 * x_step + y2 * x - y1 * x + x_step / 2) / x_step

/-- `ADC1Cal.calculate_voltage_lut(adc)`: 2-D bilinear interpolation over the
20-point tables.  `i = int((adc - _LUT_LOW_THRESH) / _LUT_ADC_STEP_SIZE)`:
the float quotient is exact (division by the power of two 64 of a small
integer) and `int` truncates toward zero, i.e. `Int.tdiv`. -/
def calculate_voltage_lut (s : ADC1Cal) (adc : ℤ) : Option ℚ :=
  let i : ℤ := (adc - LUT_LOW_THRESH).tdiv LUT_ADC_STEP_SIZE
  let x2dist : ℚ := ((LUT_VREF_HIGH - s.vref : ℤ) : ℚ)
  let x1dist : ℚ := ((s.vref - LUT_VREF_LOW : ℤ) : ℚ)
  let y2dist : ℚ := (((i + 1) * LUT_ADC_STEP_SIZE + LUT_LOW_THRESH - adc : ℤ) : ℚ)
  let y1dist : ℚ := ((adc - (i * LUT_ADC_STEP_SIZE + LUT_LOW_THRESH) : ℤ) : ℚ)
  match pyGet lut_adc1_low i, pyGet lut_adc1_low (i + 1),
        pyGet lut_adc1_high i, pyGet lut_adc1_high (i + 1) with
  | some q11, some q12, some q21, some q22 =>
      some (((q11 : ℚ) * x2dist * y2dist + (q21 : ℚ) * x1dist * y2dist
             + (q12 : ℚ) * x2dist * y1dist + (q22 : ℚ) * x1dist * y1dist)
            / (((LUT_VREF_HIGH - LUT_VREF_LOW) * LUT_ADC_STEP_SIZE : ℤ) : ℚ))
  | _, _, _, _ => none

/-- Lines 295–307 of the `voltage` property: model selection on the already
averaged, width-normalized 12-bit sample `raw_val` (before divider scaling).
the lookup-table path runs only at attenuation `ADC.ATTN_11DB = 3`. -/
def voltage_sample (s : ADC1Cal) (raw_val : ℤ) : Option ℚ :=
  if s.atten_lvl = some 3 ∧ LUT_LOW_THRESH ≤ raw_val then
    match calculate_voltage_lut s raw_val with
    | none => none
    | some lut_voltage =>
      if raw_val ≤ LUT_HIGH_THRESH then
        some (interpolate_two_points (calculate_voltage_linear s raw_val) lut_voltage
               (LUT_ADC_STEP_SIZE : ℚ) (((raw_val - LUT_LOW_THRESH : ℤ)) : ℚ))
      else
        some lut_voltage
  else
    some (calculate_voltage_linear s raw_val)

/-- The `voltage` property (lines 273–312).  `reads` are the raw samples the
external `self.read()` collaborator returns, one per loop iteration, so a run
that performs `self._samples` reads is modelled by `reads.length = s.samples`.
`none` models the `assert` on an unset attenuation, Python's
`ZeroDivisionError` on `samples = 0` or a zero divider, and the (unreachable
for configured widths) negative shift. -/
def voltage (s : ADC1Cal) (reads : List ℤ) : Option ℚ :=
  if s.atten_lvl = none then none
  else if reads.length ≠ s.samples then none
  else if s.samples = 0 then none
  else if s.div = 0 then none
  else if 3 - s.width_val < 0 then none
  else
    let raw0 : ℤ := pyRound ((reads.sum : ℚ) / (s.samples : ℚ))
    let raw_val : ℤ := raw0 * 2 ^ (3 - s.width_val).toNat
    (voltage_sample s raw_val).map (fun v => v / s.div)

/-- State-passing form of the `voltage` property: its body reads attributes
but contains no assignment to any `self` attribute, so the embedding threads
the instance state through unchanged next to the produced value. -/
def voltageM (s : ADC1Cal) (reads : List ℤ) : Option (ℚ × ADC1Cal) :=
  (voltage s reads).map (fun v => (v, s))

/-- `ADC1Cal.__init__(pin, div, vref, samples)`: width starts at 3 (12 bit),
`vref` comes from the constructor argument or, when that is `None`, from the
calibration fuse word `regVal`; then `self.atten(ADC.ATTN_6DB)` (= 2) installs
the initial coefficients (the record's zero placeholders model the attributes
not existing before that call; `atten 2` always overwrites them). -/
def init (div : ℚ) (vrefOpt : Option ℤ) (regVal : ℤ) (samples : ℕ) : Option ADC1Cal :=
  let v : ℤ := match vrefOpt with
               | none => read_efuse_vref regVal
               | some v => v
  atten 2 { vref := v, coeff_a := 0, coeff_b := 0, atten_lvl := none,
            width_val := 3, div := div, samples := samples }

/-! Concrete instances used by witnesses and counterexamples. -/

/-- A freshly constructed engine state (vref 1065 mV supplied, divider 1,
one sample) before the constructor's `atten` call. -/
def demo_state : ADC1Cal :=
  { vref := 1065, coeff_a := 0, coeff_b := 0, atten_lvl := none,
    width_val := 3, div := 1, samples := 1 }

/-- `demo_state` after `atten 2` (6 dB): `coeff_a = 1065·105481/4096`. -/
def demo6 : ADC1Cal :=
  { vref := 1065, coeff_a := 112337265/4096, coeff_b := 107, atten_lvl := some 2,
    width_val := 3, div := 1, samples := 1 }

/-- An 11 dB state with vref 1100 mV: `coeff_a = 1100·196602/4096`. -/
def demo11 : ADC1Cal :=
  { vref := 1100, coeff_a := 27032775/512, coeff_b := 142, atten_lvl := some 3,
    width_val := 3, div := 1, samples := 1 }

/-- `demo_state` after `atten (-1)`: Python negative indexing silently installs
the 11 dB table entries (`coeff_a = 1065·196602/4096`, `coeff_b = 142`). -/
def demo_neg1 : ADC1Cal :=
  { vref := 1065, coeff_a := 104690565/2048, coeff_b := 142, atten_lvl := some (-1),
    width_val := 3, div := 1, samples := 1 }

/-! Helper lemmas. -/

/-- In-range Python indexing with a nonnegative index yields the element. -/
lemma pyGet_eq_some (l : List ℤ) (i : ℤ) (h0 : 0 ≤ i) (h1 : i < l.length) :
    pyGet l i = some (l.getD i.toNat 0) := by
  have hni : ¬ i < 0 := by omega
  simp [pyGet, hni, h0, h1]

/-- For a normalized 12-bit sample in the table region the lookup-table
interpolation succeeds (all four table accesses are in range). -/
lemma lut_isSome (s : ADC1Cal) (adc : ℤ) (h1 : 2880 ≤ adc) (h2 : adc ≤ 4095) :
    (calculate_voltage_lut s adc).isSome := by
  have htd : (adc - LUT_LOW_THRESH).tdiv LUT_ADC_STEP_SIZE = (adc - 2880) / 64 := by
    show (adc - 2880).tdiv 64 = _
    exact Int.tdiv_eq_ediv (by omega) (by norm_num)
  have hi0 : 0 ≤ (adc - 2880) / 64 := by omega
  have hi18 : (adc - 2880) / 64 ≤ 18 := by omega
  rw [calculate_voltage_lut, htd]
  rw [pyGet_eq_some _ _ hi0 (by simp [lut_adc1_low]; omega),
      pyGet_eq_some _ _ (by omega) (by simp [lut_adc1_low]; omega),
      pyGet_eq_some _ _ hi0 (by simp [lut_adc1_high]; omega),
      pyGet_eq_some _ _ (by omega) (by simp [lut_adc1_high]; omega)]
  rfl

/-- Concrete table interpolation at the upper edge of the transition band. -/
lemma lut_demo11_2944 : calculate_voltage_lut demo11 2944 = some (5003/2) := by
  have h : ((2944 : ℤ) - LUT_LOW_THRESH).tdiv LUT_ADC_STEP_SIZE = 1 := by decide
  rw [calculate_voltage_lut, h]
  norm_num [pyGet, lut_adc1_low, lut_adc1_high, demo11, LUT_VREF_HIGH, LUT_VREF_LOW,
            LUT_ADC_STEP_SIZE, LUT_LOW_THRESH]

/-- The constructor's `atten 2` call on the vref-1065 state yields `demo6`. -/
lemma atten_demo_state_eq : atten 2 demo_state = some demo6 := by
  simp [atten, demo_state, demo6, pyGet, ADC1_VREF_ATTEN_SCALE, ADC1_VREF_ATTEN_OFFSET,
        ADC_12_BIT_RES]

/-- Full construction with caller-supplied vref 1065 mV, divider 1, 1 sample. -/
lemma init_demo_eq : init 1 (some 1065) 0 1 = some demo6 := by
  simp [init, atten, demo6, pyGet, ADC1_VREF_ATTEN_SCALE, ADC1_VREF_ATTEN_OFFSET,
        ADC_12_BIT_RES]

/-- End-to-end read at 6 dB on an averaged sample of 2048. -/
lemma voltage_demo6_2048 : voltage demo6 [2048] = some (126427505/131072) := by
  simp [voltage, demo6, pyRound, voltage_sample, calculate_voltage_linear,
        LIN_COEFF_A_ROUND, LIN_COEFF_A_SCALE, LUT_LOW_THRESH]
  norm_num

/-- Range of the resolver over every possible 5-bit fuse field. -/
lemma vref_bounds_of_small (n : ℕ) (h : n < 32) :
    995 ≤ VREF_OFFSET + decode_bits (n : ℤ) VREF_MASK VREF_FORMAT * VREF_STEP_SIZE
    ∧ VREF_OFFSET + decode_bits (n : ℤ) VREF_MASK VREF_FORMAT * VREF_STEP_SIZE ≤ 1205 := by
  revert h
  revert n
  decide

/-- C1: for every attenuation level in {0,1,2,3} and every reference voltage,
after `atten(level)` the stored coefficients satisfy
`coeff_a = vref * SCALE[level] / 4096` with `SCALE = [57431, 76236, 105481, 196602]`
and `coeff_b = OFFSET[level]` with `OFFSET = [75, 78, 107, 142]`, and for every
sample `calculate_voltage_linear(sample) = ((coeff_a * sample + 32768) / 65536) + coeff_b`. -/
theorem C1_atten_coefficients (lvl : ℤ)
    (hl : lvl = 0 ∨ lvl = 1 ∨ lvl = 2 ∨ lvl = 3)
    (s s' : ADC1Cal) (h : atten lvl s = some s') :
    s'.coeff_a = (s.vref : ℚ) * ([57431, 76236, 105481, 196602] : List ℚ).getD lvl.toNat 0 / 4096
    ∧ s'.coeff_b = ([75, 78, 107, 142] : List ℚ).getD lvl.toNat 0
    ∧ ∀ sample : ℤ, calculate_voltage_linear s' sample
        = (s'.coeff_a * (sample : ℚ) + 32768) / 65536 + s'.coeff_b := by
  have hlin : ∀ sample : ℤ, calculate_voltage_linear s' sample
      = (s'.coeff_a * (sample : ℚ) + 32768) / 65536 + s'.coeff_b := by
    intro sample
    simp [calculate_voltage_linear, LIN_COEFF_A_ROUND, LIN_COEFF_A_SCALE]
  rcases hl with rfl | rfl | rfl | rfl <;>
  · simp only [atten, pyGet, ADC1_VREF_ATTEN_SCALE, ADC1_VREF_ATTEN_OFFSET,
               ADC_12_BIT_RES] at h
    norm_num at h
    refine ⟨?_, ?_, hlin⟩ <;> rw [← h] <;> push_cast <;> norm_num

/-- Witness for C1 at level 2 (6 dB), vref 1065 mV, sample 2048. -/
theorem C1_witness :
    atten 2 demo_state = some demo6
    ∧ demo6.coeff_a
        = (demo_state.vref : ℚ) * ([57431, 76236, 105481, 196602] : List ℚ).getD (2 : ℤ).toNat 0 / 4096
    ∧ demo6.coeff_b = ([75, 78, 107, 142] : List ℚ).getD (2 : ℤ).toNat 0
    ∧ calculate_voltage_linear demo6 2048
        = (demo6.coeff_a * ((2048 : ℤ) : ℚ) + 32768) / 65536 + demo6.coeff_b := by
  have h := C1_atten_coefficients 2 (by norm_num) demo_state demo6 atten_demo_state_eq
  exact ⟨atten_demo_state_eq, h.1, h.2.1, h.2.2 2048⟩

/-- C2: at 11 dB a normalized sample below 2880 reports the linear voltage,
one in [2880, 2944] reports the blend
`(linear*64 + table*(sample-2880) - linear*(sample-2880) + 32) / 64`, and one
above 2944 reports the lookup-table voltage; at any other attenuation level the
linear voltage is used unconditionally (all before divider scaling). -/
theorem C2_region_blender (s : ADC1Cal) (raw : ℤ) :
    (s.atten_lvl = some 3 → raw < 2880 →
       voltage_sample s raw = some (calculate_voltage_linear s raw))
    ∧ (s.atten_lvl = some 3 → 2880 ≤ raw → raw ≤ 2944 →
       ∀ table, calculate_voltage_lut s raw = some table →
         voltage_sample s raw
           = some ((calculate_voltage_linear s raw * 64 + table * ((raw : ℚ) - 2880)
                    - calculate_voltage_linear s raw * ((raw : ℚ) - 2880) + 32) / 64))
    ∧ (s.atten_lvl = some 3 → 2944 < raw →
       voltage_sample s raw = calculate_voltage_lut s raw)
    ∧ (∀ a : ℤ, s.atten_lvl = some a → a ≠ 3 →
       voltage_sample s raw = some (calculate_voltage_linear s raw)) := by
  have hlow : LUT_LOW_THRESH = 2880 := rfl
  have hhigh : LUT_HIGH_THRESH = 2944 := rfl
  refine ⟨?_, ?_, ?_, ?_⟩
  · intro ha hr
    rw [voltage_sample, if_neg]
    rintro ⟨-, h⟩
    omega
  · intro ha h1 h2 table htab
    rw [voltage_sample, if_pos ⟨ha, by rw [hlow]; omega⟩]
    simp only [htab]
    rw [if_pos (by rw [hhigh]; omega)]
    congr 1
    rw [interpolate_two_points]
    simp only [LUT_ADC_STEP_SIZE, LUT_LOW_THRESH]
    push_cast
    ring
  · intro ha hr
    rw [voltage_sample, if_pos ⟨ha, by rw [hlow]; omega⟩]
    cases hlut : calculate_voltage_lut s raw with
    | none => rfl
    | some v =>
      have hn : ¬ raw ≤ LUT_HIGH_THRESH := by rw [hhigh]; omega
      simp [hn]
  · intro a ha hne
    rw [voltage_sample, if_neg]
    rintro ⟨h3, -⟩
    rw [ha] at h3
    exact hne (Option.some.inj h3)

/-- Witness for C2: all four regions exercised on concrete states/samples. -/
theorem C2_witness :
    voltage_sample demo11 1000 = some (calculate_voltage_linear demo11 1000)
    ∧ voltage_sample demo11 2944
        = some ((calculate_voltage_linear demo11 2944 * 64 + (5003/2) * ((2944 : ℚ) - 2880)
                 - calculate_voltage_linear demo11 2944 * ((2944 : ℚ) - 2880) + 32) / 64)
    ∧ voltage_sample demo11 3000 = calculate_voltage_lut demo11 3000
    ∧ voltage_sample demo6 2048 = some (calculate_voltage_linear demo6 2048) := by
  exact ⟨(C2_region_blender demo11 1000).1 rfl (by norm_num),
         (C2_region_blender demo11 2944).2.1 rfl (by norm_num) (by norm_num)
           (5003/2) lut_demo11_2944,
         (C2_region_blender demo11 3000).2.2.1 rfl (by norm_num),
         (C2_region_blender demo6 2048).2.2.2 2 rfl (by norm_num)⟩

/-- C3, refutation: when the fuse field holds the bits 0x1F, `read_efuse_vref`
returns 995 mV, not the claimed 893 mV (register word 0x1F00 has field 0x1F). -/
theorem C3_counterexample :
    pyAnd (pyShr (31 * 256 : ℤ) 8) VREF_MASK = 31
    ∧ read_efuse_vref (31 * 256) = 995
    ∧ (995 : ℤ) ≠ 893 := by
  refine ⟨by decide, by decide, by decide⟩

/-- C3 as amended: field bits 0 give exactly 1100 mV; field bits 0x1F give
exactly 995 mV (sign-magnitude magnitude is `bits & 0xF = 15`, so
`1100 - 15*7 = 995`). -/
theorem C3_resolver_endpoints (regVal : ℤ) :
    (pyAnd (pyShr regVal 8) VREF_MASK = 0 → read_efuse_vref regVal = 1100)
    ∧ (pyAnd (pyShr regVal 8) VREF_MASK = 31 → read_efuse_vref regVal = 995) := by
  constructor <;> intro h <;> rw [read_efuse_vref, h] <;> decide

/-- Witness for C3 amended, at register words 0 and 0x1F00. -/
theorem C3_witness :
    pyAnd (pyShr (0 : ℤ) 8) VREF_MASK = 0
    ∧ read_efuse_vref 0 = 1100
    ∧ pyAnd (pyShr (31 * 256 : ℤ) 8) VREF_MASK = 31
    ∧ read_efuse_vref (31 * 256) = 995 :=
  ⟨by decide,
   (C3_resolver_endpoints 0).1 (by decide),
   by decide,
   (C3_resolver_endpoints (31 * 256)).2 (by decide)⟩

/-- C4, refutation: the 32-bit register word 0x0F00 (field bits 0xF) gives
1205 mV, outside the claimed domain [1000, 1200]. -/
theorem C4_counterexample :
    (0 : ℤ) ≤ 15 * 256 ∧ (15 * 256 : ℤ) < 2 ^ 32
    ∧ read_efuse_vref (15 * 256) = 1205
    ∧ ¬ (read_efuse_vref (15 * 256) ≤ 1200) := by
  refine ⟨by decide, by decide, by decide, by decide⟩

/-- C4 as amended: for every 32-bit register word the resolved reference
voltage lies in [995, 1205]. -/
theorem C4_vref_domain (regVal : ℤ) (h0 : 0 ≤ regVal) (h1 : regVal < 2 ^ 32) :
    995 ≤ read_efuse_vref regVal ∧ read_efuse_vref regVal ≤ 1205 := by
  obtain ⟨a, rfl⟩ := Int.eq_ofNat_of_zero_le h0
  have hshr : pyShr (a : ℤ) 8 = ((a / 256 : ℕ) : ℤ) := by
    rw [pyShr]
    norm_num
  have hand : pyAnd ((a / 256 : ℕ) : ℤ) VREF_MASK = ((a / 256 &&& 31 : ℕ) : ℤ) := rfl
  have hlt : a / 256 &&& 31 < 32 := @Nat.and_lt_two_pow (a / 256) 31 5 (by decide)
  rw [read_efuse_vref, hshr, hand]
  exact vref_bounds_of_small (a / 256 &&& 31) hlt

/-- Witness for C4 amended, at register word 0. -/
theorem C4_witness :
    (0 : ℤ) ≤ 0 ∧ (0 : ℤ) < 2 ^ 32
    ∧ 995 ≤ read_efuse_vref 0 ∧ read_efuse_vref 0 ≤ 1205 :=
  ⟨by decide, by decide, C4_vref_domain 0 (by decide) (by decide)⟩

/-- C5: for every sample in [2880, 4095] the index `i = (sample - 2880) / 64`
(truncating division) satisfies `0 ≤ i ≤ 18` and all four lookup-table
accesses at `i` and `i+1` succeed, so `calculate_voltage_lut` succeeds. -/
theorem C5_lut_index_safe (s : ADC1Cal) (adc : ℤ) (h1 : 2880 ≤ adc) (h2 : adc ≤ 4095) :
    0 ≤ (adc - 2880).tdiv 64 ∧ (adc - 2880).tdiv 64 ≤ 18
    ∧ (pyGet lut_adc1_low ((adc - 2880).tdiv 64)).isSome
    ∧ (pyGet lut_adc1_low ((adc - 2880).tdiv 64 + 1)).isSome
    ∧ (pyGet lut_adc1_high ((adc - 2880).tdiv 64)).isSome
    ∧ (pyGet lut_adc1_high ((adc - 2880).tdiv 64 + 1)).isSome
    ∧ (calculate_voltage_lut s adc).isSome := by
  have htd : (adc - 2880).tdiv 64 = (adc - 2880) / 64 :=
    Int.tdiv_eq_ediv (by omega) (by norm_num)
  have hi0 : 0 ≤ (adc - 2880) / 64 := by omega
  have hi18 : (adc - 2880) / 64 ≤ 18 := by omega
  rw [htd]
  refine ⟨hi0, hi18, ?_, ?_, ?_, ?_, lut_isSome s adc h1 h2⟩ <;>
  · rw [pyGet_eq_some]
    · rfl
    · omega
    · first
        | (simp [lut_adc1_low]; omega)
        | (simp [lut_adc1_high]; omega)

/-- Witness for C5 at the largest 12-bit sample 4095 (index i = 18). -/
theorem C5_witness :
    (2880 : ℤ) ≤ 4095 ∧ (4095 : ℤ) ≤ 4095
    ∧ (0 ≤ ((4095 : ℤ) - 2880).tdiv 64 ∧ ((4095 : ℤ) - 2880).tdiv 64 ≤ 18
       ∧ (pyGet lut_adc1_low (((4095 : ℤ) - 2880).tdiv 64)).isSome
       ∧ (pyGet lut_adc1_low (((4095 : ℤ) - 2880).tdiv 64 + 1)).isSome
       ∧ (pyGet lut_adc1_high (((4095 : ℤ) - 2880).tdiv 64)).isSome
       ∧ (pyGet lut_adc1_high (((4095 : ℤ) - 2880).tdiv 64 + 1)).isSome
       ∧ (calculate_voltage_lut demo11 4095).isSome) :=
  ⟨by decide, by decide, C5_lut_index_safe demo11 4095 (by decide) (by decide)⟩

/-- C6, refutation: at vref 1100 mV (within [1000, 1200]) and sample 2944 the
blended voltage is 2502, while the pure lookup-table voltage is 5003/2; the
blend does not equal the table value exactly. -/
theorem C6_counterexample :
    demo11.atten_lvl = some 3 ∧ demo11.vref = 1100
    ∧ 1000 ≤ demo11.vref ∧ demo11.vref ≤ 1200
    ∧ voltage_sample demo11 2944 = some 2502
    ∧ calculate_voltage_lut demo11 2944 = some (5003/2)
    ∧ (2502 : ℚ) ≠ 5003/2 := by
  refine ⟨rfl, rfl, by decide, by decide, ?_, lut_demo11_2944, by norm_num⟩
  rw [voltage_sample, if_pos ⟨rfl, by decide⟩]
  simp only [lut_demo11_2944]
  rw [if_pos (by decide)]
  norm_num [interpolate_two_points, calculate_voltage_linear, demo11,
            LIN_COEFF_A_ROUND, LIN_COEFF_A_SCALE, LUT_ADC_STEP_SIZE, LUT_LOW_THRESH]

/-- C6 as amended: at 11 dB, for every reference voltage in [1000, 1200], the
blended voltage at sample 2880 is the pure linear voltage plus 1/2 (within the
1-unit rounding tolerance), and at sample 2944 it is the pure lookup-table
voltage plus 1/2 (within 1 unit of the table value, but not exactly equal). -/
theorem C6_blend_continuity (s : ADC1Cal) (h3 : s.atten_lvl = some 3)
    (hv1 : 1000 ≤ s.vref) (hv2 : s.vref ≤ 1200) :
    (∃ v, voltage_sample s 2880 = some v
       ∧ v = calculate_voltage_linear s 2880 + 1/2
       ∧ |v - calculate_voltage_linear s 2880| ≤ 1)
    ∧ (∃ v lv, voltage_sample s 2944 = some v
       ∧ calculate_voltage_lut s 2944 = some lv
       ∧ v = lv + 1/2 ∧ |v - lv| ≤ 1) := by
  constructor
  · obtain ⟨lv, hlv⟩ := Option.isSome_iff_exists.mp (lut_isSome s 2880 (by norm_num) (by norm_num))
    rw [voltage_sample, if_pos ⟨h3, by decide⟩]
    simp only [hlv]
    rw [if_pos (by decide)]
    have hval : interpolate_two_points (calculate_voltage_linear s 2880) lv
        ((LUT_ADC_STEP_SIZE : ℤ) : ℚ) (((2880 - LUT_LOW_THRESH : ℤ)) : ℚ)
        = calculate_voltage_linear s 2880 + 1/2 := by
      rw [interpolate_two_points]
      simp only [LUT_ADC_STEP_SIZE, LUT_LOW_THRESH]
      norm_num
      ring
    refine ⟨_, rfl, hval, ?_⟩
    rw [hval, show calculate_voltage_linear s 2880 + 1/2 - calculate_voltage_linear s 2880
          = 1/2 by ring, abs_le]
    constructor <;> norm_num
  · obtain ⟨lv, hlv⟩ := Option.isSome_iff_exists.mp (lut_isSome s 2944 (by norm_num) (by norm_num))
    rw [voltage_sample, if_pos ⟨h3, by decide⟩]
    simp only [hlv]
    rw [if_pos (by decide)]
    have hval : interpolate_two_points (calculate_voltage_linear s 2944) lv
        ((LUT_ADC_STEP_SIZE : ℤ) : ℚ) (((2944 - LUT_LOW_THRESH : ℤ)) : ℚ)
        = lv + 1/2 := by
      rw [interpolate_two_points]
      simp only [LUT_ADC_STEP_SIZE, LUT_LOW_THRESH]
      push_cast
      ring
    refine ⟨_, lv, rfl, rfl, hval, ?_⟩
    rw [hval, show lv + 1/2 - lv = 1/2 by ring, abs_le]
    constructor <;> norm_num

/-- Witness for C6 amended at vref 1100 mV. -/
theorem C6_witness :
    demo11.atten_lvl = some 3 ∧ 1000 ≤ demo11.vref ∧ demo11.vref ≤ 1200
    ∧ ((∃ v, voltage_sample demo11 2880 = some v
         ∧ v = calculate_voltage_linear demo11 2880 + 1/2
         ∧ |v - calculate_voltage_linear demo11 2880| ≤ 1)
       ∧ (∃ v lv, voltage_sample demo11 2944 = some v
         ∧ calculate_voltage_lut demo11 2944 = some lv
         ∧ v = lv + 1/2 ∧ |v - lv| ≤ 1)) :=
  ⟨rfl, by decide, by decide, C6_blend_continuity demo11 rfl (by decide) (by decide)⟩

/-- C7, refutation: with vref 1065 mV at 6 dB, `coeff_a = 1065*105481/4096 =
112337265/4096 ≈ 27426.1`, which is not within 1 of the claimed 27443. -/
theorem C7_counterexample :
    init 1 (some 1065) 0 1 = some demo6
    ∧ demo6.coeff_a = 112337265/4096
    ∧ ¬ (|demo6.coeff_a - 27443| ≤ 1) := by
  refine ⟨init_demo_eq, by norm_num [demo6], ?_⟩
  have h : demo6.coeff_a - 27443 = -(69263/4096) := by norm_num [demo6]
  rw [h, abs_neg, abs_of_nonneg (by norm_num)]
  norm_num

/-- C7 as amended: with reference voltage 1065 mV, attenuation 6 dB, bit
width 12, divider 1 and an averaged sample of 2048, `coeff_a =
1065*105481/4096 ≈ 27426` and the reported voltage is within 1 mV of 965 mV. -/
theorem C7_scenario :
    init 1 (some 1065) 0 1 = some demo6
    ∧ demo6.coeff_a = (1065 : ℚ) * 105481 / 4096
    ∧ |demo6.coeff_a - 27426| ≤ 1
    ∧ voltage demo6 [2048] = some (126427505/131072)
    ∧ |(126427505/131072 : ℚ) - 965| ≤ 1 := by
  refine ⟨init_demo_eq, by norm_num [demo6], ?_, voltage_demo6_2048, ?_⟩
  · have h : demo6.coeff_a - 27426 = 369/4096 := by norm_num [demo6]
    rw [h, abs_of_nonneg (by norm_num)]
    norm_num
  · have h : (126427505/131072 : ℚ) - 965 = -(56975/131072) := by norm_num
    rw [h, abs_neg, abs_of_nonneg (by norm_num)]
    norm_num

/-- C8: for every attenuation level in {0,1,2,3} and reference voltage in
[1000, 1200], `calculate_voltage_linear` is non-decreasing in the sample. -/
theorem C8_linear_monotone (lvl : ℤ) (hl : lvl = 0 ∨ lvl = 1 ∨ lvl = 2 ∨ lvl = 3)
    (s s' : ADC1Cal) (h : atten lvl s = some s')
    (hv1 : 1000 ≤ s.vref) (hv2 : s.vref ≤ 1200)
    (s1 s2 : ℤ) (h12 : s1 ≤ s2) :
    calculate_voltage_linear s' s1 ≤ calculate_voltage_linear s' s2 := by
  have hvz : (0 : ℤ) ≤ s.vref := by omega
  have ha : 0 ≤ s'.coeff_a := by
    rcases hl with rfl | rfl | rfl | rfl <;>
    · simp only [atten, pyGet, ADC1_VREF_ATTEN_SCALE, ADC1_VREF_ATTEN_OFFSET,
                 ADC_12_BIT_RES] at h
      norm_num at h
      rw [← h]
      apply div_nonneg _ (by norm_num)
      exact_mod_cast mul_nonneg hvz (by norm_num)
  simp only [calculate_voltage_linear, LIN_COEFF_A_ROUND, LIN_COEFF_A_SCALE]
  have hc : (s1 : ℚ) ≤ (s2 : ℚ) := by exact_mod_cast h12
  gcongr

/-- Witness for C8 at level 2, vref 1065 mV, samples 100 ≤ 200. -/
theorem C8_witness :
    ((2 : ℤ) = 0 ∨ (2 : ℤ) = 1 ∨ (2 : ℤ) = 2 ∨ (2 : ℤ) = 3)
    ∧ atten 2 demo_state = some demo6
    ∧ 1000 ≤ demo_state.vref ∧ demo_state.vref ≤ 1200 ∧ (100 : ℤ) ≤ 200
    ∧ calculate_voltage_linear demo6 100 ≤ calculate_voltage_linear demo6 200 :=
  ⟨by norm_num, atten_demo_state_eq, by decide, by decide, by decide,
   C8_linear_monotone 2 (by norm_num) demo_state demo6 atten_demo_state_eq
     (by decide) (by decide) 100 200 (by decide)⟩

/-- C9, refutation: `atten(-1)` — an argument outside {0,1,2,3} — does not
fail: through Python negative list indexing it silently installs the 11 dB
coefficients and records the attenuation. -/
theorem C9_counterexample :
    ¬ ((-1 : ℤ) = 0 ∨ (-1 : ℤ) = 1 ∨ (-1 : ℤ) = 2 ∨ (-1 : ℤ) = 3)
    ∧ atten (-1) demo_state = some demo_neg1
    ∧ demo_neg1.coeff_a = (1065 : ℚ) * 196602 / 4096
    ∧ demo_neg1.coeff_b = 142
    ∧ demo_neg1.atten_lvl = some (-1) := by
  refine ⟨by norm_num, ?_, by norm_num [demo_neg1], rfl, rfl⟩
  simp [atten, demo_state, demo_neg1, pyGet, ADC1_VREF_ATTEN_SCALE, ADC1_VREF_ATTEN_OFFSET,
        ADC_12_BIT_RES]
  norm_num

/-- C9 as amended: width arguments outside {0,1,2,3} fail the assert and
install nothing; atten arguments below -4 or above 3 raise `IndexError` and
install nothing; but atten arguments in {-4,...,-1} are silently accepted via
Python negative indexing and install coefficients. -/
theorem C9_config_validation :
    (∀ (w : ℤ) (s : ADC1Cal), w < 0 ∨ 4 ≤ w → width w s = none)
    ∧ (∀ (a : ℤ) (s : ADC1Cal), a < -4 ∨ 4 ≤ a → atten a s = none)
    ∧ (∀ (a : ℤ) (s : ADC1Cal), -4 ≤ a → a < 0 →
         ∃ s', atten a s = some s' ∧ s'.atten_lvl = some a) := by
  refine ⟨?_, ?_, ?_⟩
  · intro w s hw
    rw [width, if_neg]
    omega
  · intro a s ha
    have h1 : pyGet ADC1_VREF_ATTEN_SCALE a = none := by
      rw [pyGet]
      have hlen : (ADC1_VREF_ATTEN_SCALE.length : ℤ) = 4 := by rfl
      rw [if_neg]
      rw [hlen]
      split_ifs <;> omega
    simp [atten, h1]
  · intro a s h1 h2
    interval_cases a <;> exact ⟨_, rfl, rfl⟩

/-- Witness for C9 amended: width 7 rejected, atten 9 rejected, atten -1
silently accepted. -/
theorem C9_witness :
    ((7 : ℤ) < 0 ∨ (4 : ℤ) ≤ 7) ∧ width 7 demo_state = none
    ∧ ((9 : ℤ) < -4 ∨ (4 : ℤ) ≤ 9) ∧ atten 9 demo_state = none
    ∧ (-4 : ℤ) ≤ -1 ∧ (-1 : ℤ) < 0
    ∧ (∃ s', atten (-1) demo_state = some s' ∧ s'.atten_lvl = some (-1)) :=
  ⟨Or.inr (by norm_num), C9_config_validation.1 7 demo_state (Or.inr (by norm_num)),
   Or.inr (by norm_num), C9_config_validation.2.1 9 demo_state (Or.inr (by norm_num)),
   by norm_num, by norm_num,
   C9_config_validation.2.2 (-1) demo_state (by norm_num) (by norm_num)⟩

/-- C10: a successful voltage read leaves every configuration field (vref,
coefficients, attenuation, width, divider, sample count) exactly as it was. -/
theorem C10_voltage_frame (s : ADC1Cal) (reads : List ℤ) (v : ℚ) (s' : ADC1Cal)
    (h : voltageM s reads = some (v, s')) :
    s'.vref = s.vref ∧ s'.coeff_a = s.coeff_a ∧ s'.coeff_b = s.coeff_b
    ∧ s'.atten_lvl = s.atten_lvl ∧ s'.width_val = s.width_val
    ∧ s'.div = s.div ∧ s'.samples = s.samples := by
  rw [voltageM] at h
  cases hv : voltage s reads with
  | none => rw [hv] at h; simp at h
  | some v0 =>
    rw [hv] at h
    simp at h
    rw [← h.2]
    exact ⟨rfl, rfl, rfl, rfl, rfl, rfl, rfl⟩

/-- Witness for C10 on the concrete 6 dB read of sample 2048. -/
theorem C10_witness :
    voltageM demo6 [2048] = some (126427505/131072, demo6)
    ∧ (demo6.vref = demo6.vref ∧ demo6.coeff_a = demo6.coeff_a
       ∧ demo6.coeff_b = demo6.coeff_b ∧ demo6.atten_lvl = demo6.atten_lvl
       ∧ demo6.width_val = demo6.width_val ∧ demo6.div = demo6.div
       ∧ demo6.samples = demo6.samples) := by
  have hM : voltageM demo6 [2048] = some (126427505/131072, demo6) := by
    rw [voltageM, voltage_demo6_2048]
    rfl
  exact ⟨hM, C10_voltage_frame demo6 [2048] _ demo6 hM⟩

end AdcCal
